import Mathlib

/-!
Verification of the fluxus-source-sui polling connectors.

Shallow embedding of the repository's four pull-based source connectors
(`src/event.rs`, `src/object.rs`, `src/transaction.rs`, `src/demo.rs`) and of
the checkpoint-replay source referenced by `tests/basic.rs`.

Modelling conventions:
* The async runtime is elided: `sleep` has no observable effect on the state,
  so each `next` is a pure function of the source state and of the remote
  service's response for this call.
* The remote RPC client is an oracle parameter `remote : Args → Except String Batch`;
  every invocation the code performs is recorded in a returned call trace, so
  "never invokes the RemoteClient" is the trace being empty.
* `StreamError` in the fluxus framework is `Runtime : String`; a Rust `panic!`
  (from `Option::expect`) is a distinct outcome constructor `Outcome.panicked`,
  since it is not an error `Result` returned to the caller.
* `Record::new` merely wraps the payload (tagging it with an ingestion time
  external to this repository); the wrapper is elided and `next` returns the
  payload itself.
* Rust `HashMap<String, u64>` is modelled as an association list with
  lookup `vmGet` and replacing insert `vmInsert` (`HashMap::insert` semantics).
-/

inductive StreamError where
  | runtime : String → StreamError
deriving DecidableEq, Repr

/-- Outcome of one `next` call: `ok` mirrors `Ok(Option<Record<_>>)`,
`err` mirrors `Err(StreamError)`, and `panicked` mirrors a Rust panic
(`Option::expect`) aborting the call without returning a `Result`. -/
inductive Outcome (α : Type) where
  | ok : Option α → Outcome α
  | err : StreamError → Outcome α
  | panicked : String → Outcome α
deriving DecidableEq, Repr

/-- Sui SDK `EventID { tx_digest, event_seq }`. -/
structure EventID where
  tx_digest : String
  event_seq : Nat
deriving DecidableEq, Repr

/-- Sui SDK `EventFilter`; the code only ever constructs `EventFilter::All([])`,
other filters are abstracted by a tag. -/
structure EventFilter where
  tag : String
deriving DecidableEq, Repr

def EventFilter.All : EventFilter := ⟨"All"⟩

/-- The connected Sui client, abstracted to the URL it was built against. -/
structure SuiClient where
  url : String
deriving DecidableEq, Repr

/-- A raw event as returned by `client.event_api().query_events`:
the fields `src/event.rs` reads from `sui_sdk::rpc_types::SuiEvent`.
`parsed_json` is kept as its debug-formatted string. -/
structure SuiRawEvent where
  id : EventID
  package_id : String
  transaction_module : String
  event_type : String
  sender : String
  parsed_json : String
  timestamp_ms : Option Nat
deriving DecidableEq, Repr

/-- `ChainEvent` from `src/event.rs`. -/
structure ChainEvent where
  id : EventID
  package_id : String
  module_name : String
  event_type : String
  sender : String
  data : String
  timestamp : Nat
deriving DecidableEq, Repr

/-- `SuiEventSource` state from `src/event.rs` (the `interval` field is kept
in milliseconds). -/
structure SuiEventSource where
  rpc_url : String
  interval : Nat
  initialized : Bool
  client : Option SuiClient
  last_processed_event_id : Option String
  query : EventFilter
  cursor : Option EventID
  descending_order : Bool
  max_events : Nat
deriving DecidableEq, Repr

/-- `SuiEventSource::new`. -/
def SuiEventSource.new (rpc_url : String) (interval_ms : Nat) (max_events : Nat) :
    SuiEventSource :=
  { rpc_url := rpc_url
    interval := interval_ms
    initialized := false
    client := none
    last_processed_event_id := none
    query := EventFilter.All
    cursor := none
    descending_order := true
    max_events := max_events }

/-- `SuiEventSource::with_query`. -/
def SuiEventSource.with_query (s : SuiEventSource) (q : EventFilter) : SuiEventSource :=
  { s with query := q }

/-- `SuiEventSource::with_cursor`. -/
def SuiEventSource.with_cursor (s : SuiEventSource) (c : EventID) : SuiEventSource :=
  { s with cursor := some c }

/-- `SuiEventSource::init`, with the `SuiClientBuilder::default().build(url)`
round-trip supplied as an oracle `build`. -/
def SuiEventSource.init (s : SuiEventSource) (build : String → Except String SuiClient) :
    Except StreamError Unit × SuiEventSource :=
  if s.initialized then (.ok (), s)
  else
    match build s.rpc_url with
    | .error e =>
        (.error (.runtime ("Failed to initialize Sui client: " ++ e)), s)
    | .ok c =>
        (.ok (), { s with client := some c, initialized := true })

/-- `SuiEventSource::close`. -/
def SuiEventSource.close (s : SuiEventSource) : Except StreamError Unit × SuiEventSource :=
  (.ok (), { s with initialized := false, client := none })

/-- Arguments of one `query_events` remote call. -/
structure EventQueryArgs where
  query : EventFilter
  cursor : Option EventID
  limit : Option Nat
  descending : Bool
deriving DecidableEq, Repr

/-- The per-event conversion body of the `map` in `SuiEventSource::next`,
defined when the event carries a timestamp (`event.timestamp_ms.expect(..)`
panics otherwise). -/
def chainEventOfRaw (e : SuiRawEvent) (ts : Nat) : ChainEvent :=
  { id := e.id
    package_id := e.package_id
    module_name := e.transaction_module
    event_type := e.event_type
    sender := e.sender
    data := e.parsed_json
    timestamp := ts }

/-- The `events.data.into_iter().map(..).collect()` loop of
`SuiEventSource::next`: the first event with no `timestamp_ms` panics with
the `expect` message. -/
def mapChainEvents : List SuiRawEvent → Except String (List ChainEvent)
  | [] => .ok []
  | e :: rest =>
    match e.timestamp_ms with
    | none => .error "Timestamp not available"
    | some ts =>
      match mapChainEvents rest with
      | .error m => .error m
      | .ok ces => .ok (chainEventOfRaw e ts :: ces)

/-- `SuiEventSource::next`. The remote `query_events` call is the oracle
`remote`; the returned list records every remote invocation performed. -/
def SuiEventSource.next (s : SuiEventSource)
    (remote : EventQueryArgs → Except String (List SuiRawEvent)) :
    Outcome (List ChainEvent) × SuiEventSource × List EventQueryArgs :=
  if !s.initialized || s.client.isNone then
    (.err (.runtime "SuiEventSource not initialized"), s, [])
  else
    match s.client with
    | none => (.err (.runtime "SuiEventSource client not available"), s, [])
    | some _ =>
      let args : EventQueryArgs :=
        { query := s.query
          cursor := s.cursor
          limit := some s.max_events
          descending := s.descending_order }
      match remote args with
      | .error e =>
          (.err (.runtime ("Failed to fetch events: " ++ e)), s, [args])
      | .ok evs =>
        if evs.isEmpty then (.ok none, s, [args])
        else
          match evs.getLast? with
          | none => (.err (.runtime "Failed to get latest event"), s, [args])
          | some latest =>
            let latest_event_id := latest.id.tx_digest
            if s.last_processed_event_id = some latest_event_id then
              (.ok none, s, [args])
            else
              let s1 := { s with last_processed_event_id := some latest_event_id }
              match mapChainEvents evs with
              | .error m => (.panicked m, s1, [args])
              | .ok ces => (.ok (some ces), s1, [args])

/-- The fields of `sui_sdk::rpc_types::SuiObjectData` that `src/object.rs`
reads; the full content payload is represented by these same read fields. -/
structure SuiObjectData where
  object_id : String
  version : Nat
  type_tag : Option String
  previous_transaction : Option String
deriving DecidableEq, Repr

/-- `SuiObjectResponse`: `object.data` may be absent. -/
structure SuiObjectResponse where
  data : Option SuiObjectData
deriving DecidableEq, Repr

/-- `ChainObject` from `src/object.rs`. -/
structure ChainObject where
  id : String
  object_type : String
  owner : String
  version : Nat
  data : SuiObjectData
  last_transaction_digest : String
deriving DecidableEq, Repr

/-- `SuiObjectResponseQuery`, abstracted to an options tag;
`new_with_options(SuiObjectDataOptions::full_content())` is the default. -/
structure SuiObjectResponseQuery where
  options : String
deriving DecidableEq, Repr

def SuiObjectResponseQuery.full_content : SuiObjectResponseQuery := ⟨"full_content"⟩

/-- Association-list lookup mirroring `HashMap::get`. -/
def vmGet : List (String × Nat) → String → Option Nat
  | [], _ => none
  | (k, v) :: rest, key => if k = key then some v else vmGet rest key

/-- Association-list insert mirroring `HashMap::insert` (replace on collision). -/
def vmInsert : List (String × Nat) → String → Nat → List (String × Nat)
  | [], key, ver => [(key, ver)]
  | (k, v) :: rest, key, ver =>
    if k = key then (key, ver) :: rest else (k, v) :: vmInsert rest key ver

/-- `SuiObjectSource` state from `src/object.rs`. -/
structure SuiObjectSource where
  rpc_url : String
  interval : Nat
  initialized : Bool
  client : Option SuiClient
  target_address : String
  last_processed_versions : List (String × Nat)
  query : Option SuiObjectResponseQuery
  cursor : Option String
  max_objects : Nat
deriving DecidableEq, Repr

/-- `SuiObjectSource::new`. -/
def SuiObjectSource.new (rpc_url : String) (interval_ms : Nat)
    (target_address : String) (max_objects : Nat) : SuiObjectSource :=
  { rpc_url := rpc_url
    interval := interval_ms
    initialized := false
    client := none
    target_address := target_address
    last_processed_versions := []
    query := some SuiObjectResponseQuery.full_content
    cursor := none
    max_objects := max_objects }

/-- `SuiObjectSource::with_cursor`. -/
def SuiObjectSource.with_cursor (s : SuiObjectSource) (c : String) : SuiObjectSource :=
  { s with cursor := some c }

/-- `SuiObjectSource::init`. -/
def SuiObjectSource.init (s : SuiObjectSource) (build : String → Except String SuiClient) :
    Except StreamError Unit × SuiObjectSource :=
  if s.initialized then (.ok (), s)
  else
    match build s.rpc_url with
    | .error e =>
        (.error (.runtime ("Failed to initialize Sui client: " ++ e)), s)
    | .ok c =>
        (.ok (), { s with client := some c, initialized := true })

/-- `SuiObjectSource::close`. -/
def SuiObjectSource.close (s : SuiObjectSource) : Except StreamError Unit × SuiObjectSource :=
  (.ok (), { s with initialized := false, client := none })

/-- Arguments of one `get_owned_objects` remote call (address already parsed). -/
structure ObjectQueryArgs where
  address : String
  query : Option SuiObjectResponseQuery
  cursor : Option String
  limit : Option Nat
deriving DecidableEq, Repr

/-- The `ChainObject` built for one surviving element of the batch. -/
def chainObjectOfData (owner : String) (od : SuiObjectData) : ChainObject :=
  { id := od.object_id
    object_type := od.type_tag.getD "Unknown"
    owner := owner
    version := od.version
    data := od
    last_transaction_digest := od.previous_transaction.getD "" }

/-- The skip condition of the loop in `SuiObjectSource::next`:
`last_version >= current_version` for the stored version, if any. -/
def isStale (m : List (String × Nat)) (object_id : String) (current_version : Nat) : Bool :=
  match vmGet m object_id with
  | some last_version => current_version ≤ last_version
  | none => false

/-- The `for object in objects.data` loop of `SuiObjectSource::next`.
Returns the kept converted objects, the version map as mutated so far, and
the error aborting the loop, if any. Mirrors the source exactly: the map is
mutated per element (so mutations made before an error persist), an element
whose stored version is `>=` its own is skipped, and a missing `object.data`
aborts the call with an error. -/
def processObjects (owner : String) :
    List SuiObjectResponse → List (String × Nat) →
    List ChainObject × List (String × Nat) × Option StreamError
  | [], m => ([], m, none)
  | o :: rest, m =>
    match o.data with
    | none => ([], m, some (.runtime "Object data is missing"))
    | some od =>
      if isStale m od.object_id od.version then processObjects owner rest m
      else
        let m1 := vmInsert m od.object_id od.version
        let r := processObjects owner rest m1
        (chainObjectOfData owner od :: r.1, r.2.1, r.2.2)

/-- `SuiObjectSource::next`. `parseAddr` embeds `SuiAddress::from_str`,
`remote` the `get_owned_objects` round trip. -/
def SuiObjectSource.next (s : SuiObjectSource)
    (parseAddr : String → Except String String)
    (remote : ObjectQueryArgs → Except String (List SuiObjectResponse)) :
    Outcome (List ChainObject) × SuiObjectSource × List ObjectQueryArgs :=
  if !s.initialized || s.client.isNone then
    (.err (.runtime "SuiObjectSource not initialized"), s, [])
  else
    match s.client with
    | none => (.err (.runtime "SuiObjectSource client not available"), s, [])
    | some _ =>
      match parseAddr s.target_address with
      | .error e => (.err (.runtime ("Invalid target address: " ++ e)), s, [])
      | .ok addr =>
        let args : ObjectQueryArgs :=
          { address := addr
            query := s.query
            cursor := s.cursor
            limit := some s.max_objects }
        match remote args with
        | .error e =>
            (.err (.runtime ("Failed to fetch objects: " ++ e)), s, [args])
        | .ok objs =>
          if objs.isEmpty then (.ok none, s, [args])
          else
            let r := processObjects s.target_address objs s.last_processed_versions
            let s1 := { s with last_processed_versions := r.2.1 }
            match r.2.2 with
            | some e => (.err e, s1, [args])
            | none =>
              if r.1.isEmpty then (.ok none, s1, [args])
              else (.ok (some r.1), s1, [args])

/-- The fields of a transaction block's `data` that `src/transaction.rs`
reads: the transaction kind's name, the sender address (with
`sender_reparse_ok` embedding whether `SuiAddress::try_from(bytes)`
round-trips — in the SDK these bytes come from a `SuiAddress`, so the flag
records the abstract possibility of failure), and the debug-formatted data. -/
structure SuiTxData where
  kind_name : String
  sender : String
  sender_reparse_ok : Bool
  data_debug : String
deriving DecidableEq, Repr

/-- The fields of `SuiTransactionBlockResponse` that `src/transaction.rs` reads. -/
structure SuiTransactionBlockResponse where
  digest : String
  timestamp_ms : Option Nat
  transaction : Option SuiTxData
  checkpoint : Option Nat
deriving DecidableEq, Repr

/-- `SuiEvent` from `src/transaction.rs` (the domain record of the
transaction connector). -/
structure SuiEvent where
  transaction_digest : String
  transaction_type : String
  timestamp : Nat
  sender : String
  recipient : Option String
  amount : Option Nat
  metadata : String
deriving DecidableEq, Repr

/-- `SuiTransactionBlockResponseQuery`, abstracted to an options tag. -/
structure SuiTransactionBlockResponseQuery where
  options : String
deriving DecidableEq, Repr

def SuiTransactionBlockResponseQuery.default_options : SuiTransactionBlockResponseQuery :=
  ⟨"input,effects,events,balance_changes"⟩

/-- `SuiTransactionSource` state from `src/transaction.rs`. -/
structure SuiTransactionSource where
  rpc_url : String
  interval : Nat
  initialized : Bool
  client : Option SuiClient
  last_processed_digest : Option String
  last_processed_checkpoint : Option Nat
  query : SuiTransactionBlockResponseQuery
  cursor : Option String
  descending_order : Bool
  max_transactions : Nat
deriving DecidableEq, Repr

/-- `SuiTransactionSource::new`. -/
def SuiTransactionSource.new (rpc_url : String) (interval_ms : Nat)
    (max_transactions : Nat) : SuiTransactionSource :=
  { rpc_url := rpc_url
    interval := interval_ms
    initialized := false
    client := none
    last_processed_digest := none
    last_processed_checkpoint := none
    query := SuiTransactionBlockResponseQuery.default_options
    cursor := none
    descending_order := true
    max_transactions := max_transactions }

/-- `SuiTransactionSource::with_descending_order`. -/
def SuiTransactionSource.with_descending_order (s : SuiTransactionSource)
    (descending_order : Bool) : SuiTransactionSource :=
  { s with descending_order := descending_order }

/-- `SuiTransactionSource::init`. -/
def SuiTransactionSource.init (s : SuiTransactionSource)
    (build : String → Except String SuiClient) :
    Except StreamError Unit × SuiTransactionSource :=
  if s.initialized then (.ok (), s)
  else
    match build s.rpc_url with
    | .error e =>
        (.error (.runtime ("Failed to initialize Sui client: " ++ e)), s)
    | .ok c =>
        (.ok (), { s with client := some c, initialized := true })

/-- `SuiTransactionSource::close`. -/
def SuiTransactionSource.close (s : SuiTransactionSource) :
    Except StreamError Unit × SuiTransactionSource :=
  (.ok (), { s with initialized := false, client := none })

/-- `SuiTransactionSource::transaction_to_event`: every absent or failing
field falls back to a default (`0` timestamp, `"unknown"` strings); sender
parse failure is lenient, never an error. -/
def transaction_to_event (t : SuiTransactionBlockResponse) : SuiEvent :=
  let transaction_type := match t.transaction with
    | some tx => tx.kind_name
    | none => "unknown"
  let sender := match t.transaction with
    | some tx => if tx.sender_reparse_ok then tx.sender else "unknown"
    | none => "unknown"
  let metadata := match t.transaction with
    | some tx => tx.data_debug
    | none => "unknown"
  { transaction_digest := t.digest
    transaction_type := transaction_type
    timestamp := t.timestamp_ms.getD 0
    sender := sender
    recipient := none
    amount := none
    metadata := metadata }

/-- Arguments of one `query_transaction_blocks` remote call. -/
structure TxQueryArgs where
  query : SuiTransactionBlockResponseQuery
  cursor : Option String
  limit : Option Nat
  descending : Bool
deriving DecidableEq, Repr

/-- `SuiTransactionSource::next`. -/
def SuiTransactionSource.next (s : SuiTransactionSource)
    (remote : TxQueryArgs → Except String (List SuiTransactionBlockResponse)) :
    Outcome SuiEvent × SuiTransactionSource × List TxQueryArgs :=
  if !s.initialized || s.client.isNone then
    (.err (.runtime "SuiTransactionSource not initialized"), s, [])
  else
    match s.client with
    | none => (.err (.runtime "SuiTransactionSource client not available"), s, [])
    | some _ =>
      let args : TxQueryArgs :=
        { query := s.query
          cursor := s.cursor
          limit := some s.max_transactions
          descending := s.descending_order }
      match remote args with
      | .error e =>
          (.err (.runtime ("Failed to fetch transactions: " ++ e)), s, [args])
      | .ok txs =>
        if txs.isEmpty then (.ok none, s, [args])
        else
          match txs.head? with
          | none => (.err (.runtime "Failed to get first transaction"), s, [args])
          | some latest_transaction =>
            let latest_digest := latest_transaction.digest
            if s.last_processed_digest = some latest_digest then
              (.ok none, s, [args])
            else
              let s1 := { s with
                last_processed_digest := some latest_digest,
                last_processed_checkpoint := latest_transaction.checkpoint }
              (.ok (some (transaction_to_event latest_transaction)), s1, [args])

/-- `DemoEvent` from `src/demo.rs`; the f64 field
`value = (counter as f64).sin() * 100.0` is abstracted by its integer input
`counter` (floating point is outside the embedding; no claim reads it). -/
structure DemoEvent where
  id : String
  event_type : String
  timestamp : Nat
  value_of_counter : Nat
  metadata : String
deriving DecidableEq, Repr

/-- `DemoSource` state from `src/demo.rs`. -/
structure DemoSource where
  interval : Nat
  counter : Nat
  initialized : Bool
deriving DecidableEq, Repr

/-- `DemoSource::new`. -/
def DemoSource.new (interval_ms : Nat) : DemoSource :=
  { interval := interval_ms, counter := 0, initialized := false }

def demoEventTypes : List String := ["create", "update", "delete"]

/-- `DemoSource::generate_event`. -/
def DemoSource.generate_event (s : DemoSource) : DemoEvent × DemoSource :=
  let event_type := demoEventTypes.getD (s.counter % demoEventTypes.length) ""
  ({ id := toString s.counter
     event_type := event_type
     timestamp := s.counter
     value_of_counter := s.counter
     metadata := "Event metadata " ++ toString s.counter },
   { s with counter := s.counter + 1 })

/-- `DemoSource::init`. -/
def DemoSource.init (s : DemoSource) : Except StreamError Unit × DemoSource :=
  if s.initialized then (.ok (), s) else (.ok (), { s with initialized := true })

/-- `DemoSource::next`: note the source performs no initialization check at
all — it generates an event unconditionally. -/
def DemoSource.next (s : DemoSource) : Outcome DemoEvent × DemoSource :=
  let r := s.generate_event
  (if r.2.counter > 10 then .ok none else .ok (some r.1), r.2)

/-- `DemoSource::close`. -/
def DemoSource.close (s : DemoSource) : Except StreamError Unit × DemoSource :=
  (.ok (), { s with initialized := false })

/-- Remote calls of the checkpoint-replay source. -/
inductive CkRemoteCall where
  | latestCheckpoint : CkRemoteCall
  | fetchCheckpoint : Nat → CkRemoteCall
deriving DecidableEq, Repr

/-- Modelled from the spec: the checkpoint-replay `EventSource` that
`tests/basic.rs` drives is not under `src/`; its state follows §3
(*CheckpointCursor*: optional sequence number of the last checkpoint
consumed, an in-memory queue of not-yet-delivered records extracted from the
current checkpoint, and a cursor index into that queue) and §4.4. Records
are the opaque ledger events, modelled as strings. -/
structure CkEventSource where
  initialized : Bool
  starting_checkpoint : Option Nat
  last_checkpoint : Option Nat
  queue : List String
  cursor : Nat
deriving DecidableEq, Repr

/-- Modelled from the spec: construction with an optional explicit starting
checkpoint (§6 configuration surface). -/
def CkEventSource.new (starting_checkpoint : Option Nat) : CkEventSource :=
  { initialized := false
    starting_checkpoint := starting_checkpoint
    last_checkpoint := none
    queue := []
    cursor := 0 }

/-- Modelled from the spec (§4.4): on first activation, if no explicit
starting checkpoint was configured, resolve the remote latest-checkpoint
number; fetch the full checkpoint content once and flatten its records, in
checkpoint-internal order, into the queue. -/
def CkEventSource.init (s : CkEventSource) (latest : Nat)
    (content : Nat → List String) :
    Except StreamError Unit × CkEventSource × List CkRemoteCall :=
  if s.initialized then (.ok (), s, [])
  else
    let ck := s.starting_checkpoint.getD latest
    let calls :=
      (match s.starting_checkpoint with
       | none => [CkRemoteCall.latestCheckpoint]
       | some _ => []) ++ [CkRemoteCall.fetchCheckpoint ck]
    (.ok (),
     { s with initialized := true, last_checkpoint := some ck,
              queue := content ck, cursor := 0 },
     calls)

/-- Modelled from the spec (§4.4): deliver the queued records one at a time
on successive `next` calls by advancing the cursor index; no remote call is
made; when the queue is exhausted return "no data" (no auto-advance to a
later checkpoint). -/
def CkEventSource.next (s : CkEventSource) :
    Outcome String × CkEventSource × List CkRemoteCall :=
  if !s.initialized then
    (.err (.runtime "EventSource not initialized"), s, [])
  else
    match s.queue.get? s.cursor with
    | some r => (.ok (some r), { s with cursor := s.cursor + 1 }, [])
    | none => (.ok none, s, [])


/-- The VersionMap tracker rule exactly as the specification words it
(§4.3): for each element, look up the key's last-delivered version; if
present and greater-than-or-equal to the element's version, drop the
element; otherwise update the map to the element's version and keep the
element. Used to check that the code's loop refines it. -/
def specVersionFilter : List SuiObjectData → List (String × Nat) →
    List SuiObjectData × List (String × Nat)
  | [], m => ([], m)
  | od :: rest, m =>
    match vmGet m od.object_id with
    | some last =>
      if last ≥ od.version then specVersionFilter rest m
      else
        let r := specVersionFilter rest (vmInsert m od.object_id od.version)
        (od :: r.1, r.2)
    | none =>
      let r := specVersionFilter rest (vmInsert m od.object_id od.version)
      (od :: r.1, r.2)

/-- Iterated `next` on the checkpoint-replay source. -/
def ckIter (s : CkEventSource) : Nat → CkEventSource
  | 0 => s
  | n + 1 => ckIter (CkEventSource.next s).2.1 n

/-! ## Concrete fixtures used by witnesses and counterexamples -/

/-- An initialized event source (endpoint `"u"`, interval 0, batch 10). -/
def evFix : SuiEventSource :=
  ((SuiEventSource.new "u" 0 10).init (fun u => .ok ⟨u⟩)).2

/-- An initialized transaction source. -/
def txFix : SuiTransactionSource :=
  ((SuiTransactionSource.new "u" 0 10).init (fun u => .ok ⟨u⟩)).2

/-- An initialized object source monitoring address `"addr"`. -/
def obFix : SuiObjectSource :=
  ((SuiObjectSource.new "u" 0 "addr" 10).init (fun u => .ok ⟨u⟩)).2

def rawEvA : SuiRawEvent := ⟨⟨"a", 0⟩, "p", "m", "t", "snd", "j", some 1⟩
def rawEvB : SuiRawEvent := ⟨⟨"b", 0⟩, "p", "m", "t", "snd", "j", some 2⟩
def rawEvC : SuiRawEvent := ⟨⟨"c", 0⟩, "p", "m", "t", "snd", "j", some 3⟩
def rawEvNoTs : SuiRawEvent := ⟨⟨"n", 0⟩, "p", "m", "t", "snd", "j", none⟩

def od1 : SuiObjectData := ⟨"o1", 1, some "T", some "d"⟩
def od1v2 : SuiObjectData := ⟨"o1", 2, some "T", some "d"⟩

/-- A transaction block response with the given digest and checkpoint. -/
def txResp (d : String) (ck : Option Nat) : SuiTransactionBlockResponse :=
  ⟨d, some 5, some ⟨"ProgrammableTransaction", "0xsend", true, "dbg"⟩, ck⟩

/-- Identity address parser used by object-source fixtures. -/
def paOk : String → Except String String := fun a => .ok a

/-- Object-source remote returning `{id: o1, version: 1}`. -/
def obR1 : ObjectQueryArgs → Except String (List SuiObjectResponse) :=
  fun _ => .ok [⟨some od1⟩]

/-- Object-source remote returning `{id: o1, version: 2}`. -/
def obR2 : ObjectQueryArgs → Except String (List SuiObjectResponse) :=
  fun _ => .ok [⟨some od1v2⟩]

/-- State after the first scenario poll of claim C6. -/
def obFix2 : SuiObjectSource := (obFix.next paOk obR1).2.1

/-- State after the second scenario poll of claim C6. -/
def obFix3 : SuiObjectSource := (obFix2.next paOk obR1).2.1

/-- Event-source remotes delivering singleton batches (C3/C8 scenarios). -/
def evRemA : EventQueryArgs → Except String (List SuiRawEvent) := fun _ => .ok [rawEvA]
def evRemB : EventQueryArgs → Except String (List SuiRawEvent) := fun _ => .ok [rawEvB]
def evRemC : EventQueryArgs → Except String (List SuiRawEvent) := fun _ => .ok [rawEvC]

/-- Event-source states along the C3 scenario polls. -/
def evFixA : SuiEventSource := (evFix.next evRemA).2.1
def evFixAB : SuiEventSource := (evFixA.next evRemB).2.1

/-- Event source whose stored watermark is digest `"a"` (C8). -/
def evFixWmA : SuiEventSource := { evFix with last_processed_event_id := some "a" }

/-- Event-source states along the C8 scenario polls `[e1], [e2], [e2], [e3]`. -/
def evFix8b : SuiEventSource := (evFixA.next evRemB).2.1
def evFix8c : SuiEventSource := (evFix8b.next evRemB).2.1

/-- A checkpoint-replay source holding a two-record queue, as after `init`
against a checkpoint with records `r1, r2`. -/
def ckFix : CkEventSource :=
  ((CkEventSource.new (some 3)).init 9 (fun _ => ["r1", "r2"])).2.1

/-- Transaction-source remote delivering the single digest `"t1"`. -/
def txRem1 : TxQueryArgs → Except String (List SuiTransactionBlockResponse) :=
  fun _ => .ok [txResp "t1" (some 5)]

/-- Transaction source whose stored watermark is digest `"t1"`. -/
def txFixD : SuiTransactionSource := (txFix.next txRem1).2.1

/-! ## Helper lemmas -/

theorem vmGet_vmInsert (m : List (String × Nat)) (key k : String) (ver : Nat) :
    vmGet (vmInsert m key ver) k = if key = k then some ver else vmGet m k := by
  induction m with
  | nil => simp [vmInsert, vmGet]
  | cons p rest ih =>
    obtain ⟨a, b⟩ := p
    simp only [vmInsert, vmGet]
    by_cases h1 : a = key
    · subst h1
      by_cases h2 : a = k <;> simp [vmGet, h2]
    · by_cases h2 : a = k
      · subst h2
        have h3 : ¬ key = a := fun h => h1 h.symm
        simp [vmGet, h1, h3]
      · simp [vmGet, h1, h2, ih]

theorem mapChainEvents_missing (evs : List SuiRawEvent) (e : SuiRawEvent)
    (he : e ∈ evs) (hts : e.timestamp_ms = none) :
    mapChainEvents evs = .error "Timestamp not available" := by
  induction evs with
  | nil => cases he
  | cons a rest ih =>
    rcases List.mem_cons.mp he with h | h
    · subst h
      simp [mapChainEvents, hts]
    · cases hta : a.timestamp_ms with
      | none => simp [mapChainEvents, hta]
      | some ts => simp [mapChainEvents, hta, ih h]

theorem isStale_false_lt (m : List (String × Nat)) (object_id : String)
    (current_version last : Nat) (hst : isStale m object_id current_version = false)
    (hv : vmGet m object_id = some last) : last < current_version := by
  unfold isStale at hst
  rw [hv] at hst
  simpa using hst

theorem processObjects_vm_mono (owner : String) :
    ∀ (objs : List SuiObjectResponse) (m : List (String × Nat)) (k : String) (v : Nat),
      vmGet m k = some v →
      ∃ w, vmGet (processObjects owner objs m).2.1 k = some w ∧ v ≤ w := by
  intro objs
  induction objs with
  | nil =>
    intro m k v h
    exact ⟨v, h, le_rfl⟩
  | cons o rest ih =>
    intro m k v h
    cases hd : o.data with
    | none =>
      refine ⟨v, ?_, le_rfl⟩
      simp [processObjects, hd, h]
    | some od =>
      cases hst : isStale m od.object_id od.version with
      | true =>
        have := ih m k v h
        simpa [processObjects, hd, hst] using this
      | false =>
        by_cases hk : od.object_id = k
        · subst hk
          have hlt : v < od.version := isStale_false_lt m od.object_id od.version v hst h
          have hm1 : vmGet (vmInsert m od.object_id od.version) od.object_id
              = some od.version := by
            rw [vmGet_vmInsert]
            simp
          obtain ⟨w, hw, hle⟩ := ih (vmInsert m od.object_id od.version) od.object_id od.version hm1
          refine ⟨w, ?_, le_trans (le_of_lt hlt) hle⟩
          simpa [processObjects, hd, hst] using hw
        · have hm1 : vmGet (vmInsert m od.object_id od.version) k = some v := by
            rw [vmGet_vmInsert]
            simp [hk, h]
          obtain ⟨w, hw, hle⟩ := ih (vmInsert m od.object_id od.version) k v hm1
          refine ⟨w, ?_, hle⟩
          simpa [processObjects, hd, hst] using hw

theorem processObjects_kept_new (owner : String) :
    ∀ (objs : List SuiObjectResponse) (m : List (String × Nat)) (co : ChainObject),
      co ∈ (processObjects owner objs m).1 →
      ∀ v, vmGet m co.id = some v → v < co.version := by
  intro objs
  induction objs with
  | nil =>
    intro m co hm
    simp [processObjects] at hm
  | cons o rest ih =>
    intro m co hm v hv
    cases hd : o.data with
    | none =>
      rw [processObjects] at hm
      simp [hd] at hm
    | some od =>
      cases hst : isStale m od.object_id od.version with
      | true =>
        rw [processObjects] at hm
        simp only [hd, hst, if_true] at hm
        exact ih m co hm v hv
      | false =>
        rw [processObjects] at hm
        simp only [hd, hst, Bool.false_eq_true, if_false, List.mem_cons] at hm
        rcases hm with hco | hco
        · subst hco
          simp only [chainObjectOfData] at hv ⊢
          exact isStale_false_lt m od.object_id od.version v hst hv
        · by_cases hk : od.object_id = co.id
          · have hlt : v < od.version := by
              refine isStale_false_lt m od.object_id od.version v hst ?_
              rw [hk]
              exact hv
            have hm1 : vmGet (vmInsert m od.object_id od.version) co.id
                = some od.version := by
              rw [vmGet_vmInsert]
              simp [hk]
            exact lt_trans hlt (ih (vmInsert m od.object_id od.version) co hco od.version hm1)
          · have hm1 : vmGet (vmInsert m od.object_id od.version) co.id = some v := by
              rw [vmGet_vmInsert]
              simp [hk, hv]
            exact ih (vmInsert m od.object_id od.version) co hco v hm1

theorem processObjects_vm_untouched (owner : String) :
    ∀ (objs : List SuiObjectResponse) (m : List (String × Nat)) (k : String),
      (∀ o ∈ objs, ∀ od, o.data = some od → od.object_id ≠ k) →
      vmGet (processObjects owner objs m).2.1 k = vmGet m k := by
  intro objs
  induction objs with
  | nil =>
    intro m k _
    simp [processObjects]
  | cons o rest ih =>
    intro m k hk
    cases hd : o.data with
    | none => simp [processObjects, hd]
    | some od =>
      have hkr : ∀ o ∈ rest, ∀ od, o.data = some od → od.object_id ≠ k := by
        intro o ho
        exact hk o (List.mem_cons_of_mem _ ho)
      cases hst : isStale m od.object_id od.version with
      | true =>
        simp only [processObjects, hd, hst, if_true]
        exact ih m k hkr
      | false =>
        have hne : od.object_id ≠ k := hk o (List.mem_cons_self o rest) od hd
        simp only [processObjects, hd, hst, Bool.false_eq_true, if_false]
        rw [ih (vmInsert m od.object_id od.version) k hkr, vmGet_vmInsert]
        simp [hne]

theorem processObjects_eq_spec (owner : String) :
    ∀ (objs : List SuiObjectResponse) (m : List (String × Nat)),
      (∀ o ∈ objs, o.data.isSome = true) →
      processObjects owner objs m =
        ((specVersionFilter (objs.filterMap SuiObjectResponse.data) m).1.map
            (chainObjectOfData owner),
         (specVersionFilter (objs.filterMap SuiObjectResponse.data) m).2, none) := by
  intro objs
  induction objs with
  | nil =>
    intro m _
    simp [processObjects, specVersionFilter]
  | cons o rest ih =>
    intro m hall
    have hrest : ∀ o ∈ rest, o.data.isSome = true := by
      intro o ho
      exact hall o (List.mem_cons_of_mem _ ho)
    cases hd : o.data with
    | none =>
      have := hall o (List.mem_cons_self o rest)
      rw [hd] at this
      cases this
    | some od =>
      have hfm : (o :: rest).filterMap SuiObjectResponse.data
          = od :: rest.filterMap SuiObjectResponse.data := by
        simp [List.filterMap_cons, hd]
      rw [hfm]
      cases hv : vmGet m od.object_id with
      | some last =>
        by_cases hge : od.version ≤ last
        · have hst : isStale m od.object_id od.version = true := by
            unfold isStale
            rw [hv]
            simpa using hge
          simp only [processObjects, specVersionFilter, hd, hst, hv, if_true, ge_iff_le, hge]
          exact ih m hrest
        · have hst : isStale m od.object_id od.version = false := by
            unfold isStale
            rw [hv]
            simpa using hge
          simp only [processObjects, specVersionFilter, hd, hst, hv, Bool.false_eq_true,
            if_false, ge_iff_le, hge]
          rw [ih (vmInsert m od.object_id od.version) hrest]
          simp
      | none =>
        have hst : isStale m od.object_id od.version = false := by
          unfold isStale
          rw [hv]
        simp only [processObjects, specVersionFilter, hd, hst, hv, Bool.false_eq_true, if_false]
        rw [ih (vmInsert m od.object_id od.version) hrest]
        simp

theorem eventNext_cases (s : SuiEventSource)
    (remote : EventQueryArgs → Except String (List SuiRawEvent)) :
    (s.next remote).2.1 = s ∨
    ∃ d, (s.next remote).2.1 = { s with last_processed_event_id := some d } ∧
      ∀ e, (s.next remote).1 ≠ .err e := by
  unfold SuiEventSource.next
  dsimp only
  repeat' split
  all_goals first
    | exact Or.inl rfl
    | exact Or.inr ⟨_, rfl, fun e h => by cases h⟩

theorem txNext_cases (s : SuiTransactionSource)
    (remote : TxQueryArgs → Except String (List SuiTransactionBlockResponse)) :
    (s.next remote).2.1 = s ∨
    ∃ d ck, (s.next remote).2.1 =
        { s with last_processed_digest := some d, last_processed_checkpoint := ck } ∧
      ∀ e, (s.next remote).1 ≠ .err e := by
  unfold SuiTransactionSource.next
  dsimp only
  repeat' split
  all_goals first
    | exact Or.inl rfl
    | exact Or.inr ⟨_, _, rfl, fun e h => by cases h⟩

theorem objNext_cases (s : SuiObjectSource)
    (pa : String → Except String String)
    (remote : ObjectQueryArgs → Except String (List SuiObjectResponse)) :
    ((s.next pa remote).2.1 = s ∧ ∀ cos, (s.next pa remote).1 ≠ .ok (some cos)) ∨
    ∃ objs,
      (s.next pa remote).2.1 =
        { s with last_processed_versions :=
            (processObjects s.target_address objs s.last_processed_versions).2.1 } ∧
      ∀ cos, (s.next pa remote).1 = .ok (some cos) →
        cos = (processObjects s.target_address objs s.last_processed_versions).1 := by
  unfold SuiObjectSource.next
  dsimp only
  repeat' split
  all_goals first
    | exact Or.inl ⟨rfl, fun cos h => by cases h⟩
    | exact Or.inr ⟨_, rfl, fun cos h => by cases h <;> rfl⟩

theorem eventNext_dup (s : SuiEventSource)
    (remote : EventQueryArgs → Except String (List SuiRawEvent))
    (evs : List SuiRawEvent) (latest : SuiRawEvent)
    (h1 : s.initialized = true) (c : SuiClient) (h2 : s.client = some c)
    (h3 : remote { query := s.query, cursor := s.cursor, limit := some s.max_events,
                   descending := s.descending_order } = .ok evs)
    (h4 : evs.getLast? = some latest)
    (h5 : s.last_processed_event_id = some latest.id.tx_digest) :
    s.next remote =
      (.ok none, s,
       [{ query := s.query, cursor := s.cursor, limit := some s.max_events,
          descending := s.descending_order }]) := by
  have h6 : evs.isEmpty = false := by
    cases evs with
    | nil => cases h4
    | cons a rest => rfl
  unfold SuiEventSource.next
  rw [h2]
  simp only [h1, Option.isNone_some, Bool.not_true, Bool.false_or]
  rw [h3]
  simp only [h6, Bool.false_eq_true, if_false, h4, h5, if_true]

theorem txNext_dup (s : SuiTransactionSource)
    (remote : TxQueryArgs → Except String (List SuiTransactionBlockResponse))
    (txs : List SuiTransactionBlockResponse) (latest : SuiTransactionBlockResponse)
    (h1 : s.initialized = true) (c : SuiClient) (h2 : s.client = some c)
    (h3 : remote { query := s.query, cursor := s.cursor, limit := some s.max_transactions,
                   descending := s.descending_order } = .ok txs)
    (h4 : txs.head? = some latest)
    (h5 : s.last_processed_digest = some latest.digest) :
    s.next remote =
      (.ok none, s,
       [{ query := s.query, cursor := s.cursor, limit := some s.max_transactions,
          descending := s.descending_order }]) := by
  have h6 : txs.isEmpty = false := by
    cases txs with
    | nil => cases h4
    | cons a rest => rfl
  unfold SuiTransactionSource.next
  rw [h2]
  simp only [h1, Option.isNone_some, Bool.not_true, Bool.false_or]
  rw [h3]
  simp only [h6, Bool.false_eq_true, if_false, h4, h5, if_true]

theorem ckNext_deliver (s : CkEventSource) (h1 : s.initialized = true)
    (h : s.cursor < s.queue.length) :
    s.next = (.ok (some (s.queue.get ⟨s.cursor, h⟩)),
              { s with cursor := s.cursor + 1 }, []) := by
  unfold CkEventSource.next
  simp only [h1, Bool.not_true, Bool.false_eq_true, if_false, List.get?_eq_get h]

theorem ckNext_exhausted (s : CkEventSource) (h1 : s.initialized = true)
    (h : s.queue.length ≤ s.cursor) :
    s.next = (.ok none, s, []) := by
  unfold CkEventSource.next
  simp only [h1, Bool.not_true, Bool.false_eq_true, if_false, List.get?_eq_none.mpr h]

theorem ckIter_state : ∀ (n : Nat) (s : CkEventSource), s.initialized = true →
    ckIter s n = { s with cursor := min (s.cursor + n) (max s.cursor s.queue.length) } := by
  intro n
  induction n with
  | zero =>
    intro s h1
    obtain ⟨i, sc, lc, q, c⟩ := s
    simp only [ckIter]
    simp only [CkEventSource.mk.injEq, true_and]
    dsimp only at *
    omega
  | succ n ih =>
    intro s h1
    by_cases h : s.cursor < s.queue.length
    · rw [ckIter, ckNext_deliver s h1 h]
      rw [ih { s with cursor := s.cursor + 1 } h1]
      obtain ⟨i, sc, lc, q, c⟩ := s
      simp only [CkEventSource.mk.injEq, true_and]
      dsimp only at h ⊢
      omega
    · rw [ckIter, ckNext_exhausted s h1 (Nat.le_of_not_lt h)]
      rw [ih s h1]
      obtain ⟨i, sc, lc, q, c⟩ := s
      simp only [CkEventSource.mk.injEq, true_and]
      dsimp only at h ⊢
      omega

/-! ## Claim theorems -/

/-- C1, counterexample: with an empty version map, a poll whose batch is
`[{o1, v1}, {data: None}]` makes `SuiObjectSource::next` return an error,
yet the version map after the call is `[("o1", 1)]`, not the empty map it
was before the call — the watermark advanced during an errored call. -/
theorem c1_counterexample :
    obFix.last_processed_versions = [] ∧
    (obFix.next paOk (fun _ => .ok [⟨some od1⟩, ⟨none⟩])).1
      = .err (.runtime "Object data is missing") ∧
    (obFix.next paOk (fun _ => .ok [⟨some od1⟩, ⟨none⟩])).2.1.last_processed_versions
      = [("o1", 1)] := by
  decide

/-- C1, amended: the event and transaction sources commit their watermark at
most once per call, after the dedup check, and any `next()` that returns an
error leaves the state exactly unchanged; the object source however updates
its version map per element while looping over the batch, so an errored call
may retain advancements for elements processed before the failure — its map
entries never regress, but are not necessarily what they were before the
call. -/
theorem c1_error_leaves_watermark :
    (∀ (s : SuiEventSource) (remote : EventQueryArgs → Except String (List SuiRawEvent))
        (e : StreamError), (s.next remote).1 = .err e → (s.next remote).2.1 = s) ∧
    (∀ (s : SuiTransactionSource)
        (remote : TxQueryArgs → Except String (List SuiTransactionBlockResponse))
        (e : StreamError), (s.next remote).1 = .err e → (s.next remote).2.1 = s) ∧
    (∀ (s : SuiObjectSource) (pa : String → Except String String)
        (remote : ObjectQueryArgs → Except String (List SuiObjectResponse))
        (k : String) (v : Nat),
        vmGet s.last_processed_versions k = some v →
        ∃ w, vmGet (s.next pa remote).2.1.last_processed_versions k = some w ∧ v ≤ w) := by
  refine ⟨?_, ?_, ?_⟩
  · intro s remote e h
    rcases eventNext_cases s remote with hc | ⟨d, hs, hne⟩
    · exact hc
    · exact absurd h (hne e)
  · intro s remote e h
    rcases txNext_cases s remote with hc | ⟨d, ck, hs, hne⟩
    · exact hc
    · exact absurd h (hne e)
  · intro s pa remote k v hv
    rcases objNext_cases s pa remote with ⟨hc, _⟩ | ⟨objs, hs, _⟩
    · rw [hc]
      exact ⟨v, hv, le_rfl⟩
    · rw [hs]
      exact processObjects_vm_mono s.target_address objs s.last_processed_versions k v hv

/-- C1, witness: the amended theorem applied at concrete error-returning
calls of all three connectors. -/
theorem c1_witness :
    (evFix.next (fun _ => .error "boom")).2.1 = evFix ∧
    (txFix.next (fun _ => .error "boom")).2.1 = txFix ∧
    ∃ w, vmGet ((obFix2.next paOk
          (fun _ => .ok [⟨some od1⟩, ⟨none⟩])).2.1.last_processed_versions) "o1"
        = some w ∧ 1 ≤ w := by
  refine ⟨c1_error_leaves_watermark.1 evFix _
            (.runtime "Failed to fetch events: boom") (by decide),
          c1_error_leaves_watermark.2.1 txFix _
            (.runtime "Failed to fetch transactions: boom") (by decide),
          c1_error_leaves_watermark.2.2 obFix2 paOk _ "o1" 1 (by decide)⟩

/-- C2, counterexample: `DemoSource::next` performs no initialization check —
on a freshly constructed (uninitialized) `DemoSource` it succeeds and yields
a record instead of failing with a not-initialized error. -/
theorem c2_counterexample :
    (DemoSource.new 100).initialized = false ∧
    ((DemoSource.new 100).next).1
      = .ok (some { id := "0", event_type := "create", timestamp := 0,
                    value_of_counter := 0, metadata := "Event metadata 0" }) := by
  constructor
  · rfl
  · rfl

/-- C2, amended: for the three Sui connectors (event, object, transaction),
calling `next()` while uninitialized or with no stored client — which
includes the state after `close()` — fails with the source's not-initialized
runtime error, leaves the state unchanged and performs no remote call; the
demo connector, by contrast, never checks the flag and never returns an
error from `next()`. -/
theorem c2_uninitialized_next_fails :
    (∀ (s : SuiEventSource) (remote : EventQueryArgs → Except String (List SuiRawEvent)),
        s.initialized = false ∨ s.client = none →
        s.next remote = (.err (.runtime "SuiEventSource not initialized"), s, [])) ∧
    (∀ (s : SuiObjectSource) (pa : String → Except String String)
        (remote : ObjectQueryArgs → Except String (List SuiObjectResponse)),
        s.initialized = false ∨ s.client = none →
        s.next pa remote = (.err (.runtime "SuiObjectSource not initialized"), s, [])) ∧
    (∀ (s : SuiTransactionSource)
        (remote : TxQueryArgs → Except String (List SuiTransactionBlockResponse)),
        s.initialized = false ∨ s.client = none →
        s.next remote = (.err (.runtime "SuiTransactionSource not initialized"), s, [])) ∧
    (∀ (d : DemoSource) (e : StreamError), (DemoSource.next d).1 ≠ .err e) := by
  refine ⟨?_, ?_, ?_, ?_⟩
  · intro s remote h
    unfold SuiEventSource.next
    rcases h with h | h <;> simp [h]
  · intro s pa remote h
    unfold SuiObjectSource.next
    rcases h with h | h <;> simp [h]
  · intro s remote h
    unfold SuiTransactionSource.next
    rcases h with h | h <;> simp [h]
  · intro d e h
    unfold DemoSource.next at h
    dsimp only at h
    split at h <;> cases h

/-- C2, witness: the amended theorem applied to freshly constructed
(uninitialized) sources and to sources that were just closed. -/
theorem c2_witness :
    (SuiEventSource.new "u" 1 2).next (fun _ => .ok [rawEvA])
      = (.err (.runtime "SuiEventSource not initialized"), SuiEventSource.new "u" 1 2, []) ∧
    ((evFix.close).2.next (fun _ => .ok [rawEvA]))
      = (.err (.runtime "SuiEventSource not initialized"), (evFix.close).2, []) ∧
    (SuiObjectSource.new "u" 1 "addr" 2).next paOk obR1
      = (.err (.runtime "SuiObjectSource not initialized"),
         SuiObjectSource.new "u" 1 "addr" 2, []) ∧
    (SuiTransactionSource.new "u" 1 2).next (fun _ => .ok [txResp "t" none])
      = (.err (.runtime "SuiTransactionSource not initialized"),
         SuiTransactionSource.new "u" 1 2, []) ∧
    ((DemoSource.new 7).next).1 ≠ .err (.runtime "DemoSource not initialized") := by
  refine ⟨c2_uninitialized_next_fails.1 _ _ (Or.inl (by decide)),
          c2_uninitialized_next_fails.1 _ _ (Or.inl (by decide)),
          c2_uninitialized_next_fails.2.1 _ _ _ (Or.inl (by decide)),
          c2_uninitialized_next_fails.2.2.1 _ _ (Or.inl (by decide)),
          c2_uninitialized_next_fails.2.2.2 (DemoSource.new 7) _⟩

/-- C3, counterexample: the event connector's LastID tracker re-emits an
already-delivered record when the remote returns it again after the
watermark moved on — batches `[a]`, `[b]`, `[a]` deliver `a` twice. -/
theorem c3_counterexample :
    (evFix.next evRemA).1 = .ok (some [chainEventOfRaw rawEvA 1]) ∧
    (evFixA.next evRemB).1 = .ok (some [chainEventOfRaw rawEvB 2]) ∧
    (evFixAB.next evRemA).1 = .ok (some [chainEventOfRaw rawEvA 1]) := by
  decide

/-- C3, amended: idempotent delivery holds for the VersionMap connector —
version-map entries never decrease across any `next()` and every emitted
object strictly exceeds the version stored for its key, so an
already-delivered (key, version) is never re-emitted; the LastID connectors
(event, transaction) only suppress a poll whose designated-latest identifier
equals the currently stored watermark, which protects against consecutive
duplicate batches but not against a record reappearing after the watermark
advanced past it. -/
theorem c3_idempotent_delivery :
    (∀ (s : SuiObjectSource) (pa : String → Except String String)
        (remote : ObjectQueryArgs → Except String (List SuiObjectResponse))
        (k : String) (v : Nat),
        vmGet s.last_processed_versions k = some v →
        ∃ w, vmGet (s.next pa remote).2.1.last_processed_versions k = some w ∧ v ≤ w) ∧
    (∀ (s : SuiObjectSource) (pa : String → Except String String)
        (remote : ObjectQueryArgs → Except String (List SuiObjectResponse))
        (cos : List ChainObject) (co : ChainObject) (v : Nat),
        (s.next pa remote).1 = .ok (some cos) → co ∈ cos →
        vmGet s.last_processed_versions co.id = some v → v < co.version) ∧
    (∀ (s : SuiEventSource) (remote : EventQueryArgs → Except String (List SuiRawEvent))
        (evs : List SuiRawEvent) (latest : SuiRawEvent) (c : SuiClient),
        s.initialized = true → s.client = some c →
        remote { query := s.query, cursor := s.cursor, limit := some s.max_events,
                 descending := s.descending_order } = .ok evs →
        evs.getLast? = some latest →
        s.last_processed_event_id = some latest.id.tx_digest →
        (s.next remote).1 = .ok none ∧ (s.next remote).2.1 = s) ∧
    (∀ (s : SuiTransactionSource)
        (remote : TxQueryArgs → Except String (List SuiTransactionBlockResponse))
        (txs : List SuiTransactionBlockResponse) (latest : SuiTransactionBlockResponse)
        (c : SuiClient),
        s.initialized = true → s.client = some c →
        remote { query := s.query, cursor := s.cursor, limit := some s.max_transactions,
                 descending := s.descending_order } = .ok txs →
        txs.head? = some latest →
        s.last_processed_digest = some latest.digest →
        (s.next remote).1 = .ok none ∧ (s.next remote).2.1 = s) := by
  refine ⟨?_, ?_, ?_, ?_⟩
  · intro s pa remote k v hv
    rcases objNext_cases s pa remote with ⟨hc, _⟩ | ⟨objs, hs, _⟩
    · rw [hc]
      exact ⟨v, hv, le_rfl⟩
    · rw [hs]
      exact processObjects_vm_mono s.target_address objs s.last_processed_versions k v hv
  · intro s pa remote cos co v hok hmem hv
    rcases objNext_cases s pa remote with ⟨_, hno⟩ | ⟨objs, _, hcos⟩
    · exact absurd hok (hno cos)
    · rw [hcos cos hok] at hmem
      exact processObjects_kept_new s.target_address objs s.last_processed_versions co hmem v hv
  · intro s remote evs latest c h1 h2 h3 h4 h5
    rw [eventNext_dup s remote evs latest h1 c h2 h3 h4 h5]
    exact ⟨rfl, rfl⟩
  · intro s remote txs latest c h1 h2 h3 h4 h5
    rw [txNext_dup s remote txs latest h1 c h2 h3 h4 h5]
    exact ⟨rfl, rfl⟩

/-- C3, witness: the amended theorem applied at concrete polls — a map
holding `o1 ↦ 1`, a delivery of `o1` at version 2, and duplicate polls of
the event and transaction connectors. -/
theorem c3_witness :
    (∃ w, vmGet ((obFix2.next paOk obR2).2.1.last_processed_versions) "o1"
        = some w ∧ 1 ≤ w) ∧
    ((1 : Nat) < (chainObjectOfData "addr" od1v2).version) ∧
    ((evFixA.next evRemA).1 = .ok none ∧ (evFixA.next evRemA).2.1 = evFixA) ∧
    ((txFixD.next txRem1).1 = .ok none ∧ (txFixD.next txRem1).2.1 = txFixD) := by
  refine ⟨c3_idempotent_delivery.1 obFix2 paOk obR2 "o1" 1 (by decide),
          c3_idempotent_delivery.2.1 obFix2 paOk obR2
            [chainObjectOfData "addr" od1v2] (chainObjectOfData "addr" od1v2) 1
            (by decide) (by decide) (by decide),
          c3_idempotent_delivery.2.2.1 evFixA evRemA [rawEvA] rawEvA ⟨"u"⟩
            (by decide) (by decide) rfl (by decide) (by decide),
          c3_idempotent_delivery.2.2.2 txFixD txRem1 [txResp "t1" (some 5)]
            (txResp "t1" (some 5)) ⟨"u"⟩
            (by decide) (by decide) rfl (by decide) (by decide)⟩

/-- C4, code evaluated at the failing input: the event source queries with
`descending_order = true` (newest first), yet designates `events.data.last()`
— the batch's oldest element — as the "latest" and stores its digest `"b"`
as the watermark, although the first element of the descending batch (digest
`"a"`) is the latest one; the code's own comment reads "Get latest event
ID". The transaction source takes `.first()` as the claim states. -/
theorem c4_event_source_takes_last :
    evFix.descending_order = true ∧
    [rawEvA, rawEvB].head? = some rawEvA ∧
    rawEvA.id.tx_digest = "a" ∧
    (evFix.next (fun _ => .ok [rawEvA, rawEvB])).2.1.last_processed_event_id = some "b" ∧
    txFix.descending_order = true ∧
    (txFix.next (fun _ => .ok [txResp "t1" none, txResp "t2" none])).2.1.last_processed_digest
      = some "t1" := by
  decide

/-- C5, counterexample: polling an initialized event source whose batch
contains an event with no `timestamp_ms` does not surface an error result —
`next()` aborts in a panic (`Option::expect("Timestamp not available")`). -/
theorem c5_counterexample :
    (evFix.next (fun _ => .ok [rawEvNoTs])).1 = .panicked "Timestamp not available" := by
  decide

/-- C5, amended: when a fetched batch survives the dedup check and any of
its events lacks a timestamp, the mapper aborts `next()` with the panic
message "Timestamp not available" (from `Option::expect`) instead of
returning an error result to the caller; the timestamp is indeed mandatory
and never defaulted, but the failure mode is a panic, not an `Err`. -/
theorem c5_missing_timestamp_panics (s : SuiEventSource)
    (remote : EventQueryArgs → Except String (List SuiRawEvent))
    (evs : List SuiRawEvent) (latest ev : SuiRawEvent) (c : SuiClient)
    (h1 : s.initialized = true) (h2 : s.client = some c)
    (h3 : remote { query := s.query, cursor := s.cursor, limit := some s.max_events,
                   descending := s.descending_order } = .ok evs)
    (h4 : evs.getLast? = some latest)
    (h5 : s.last_processed_event_id ≠ some latest.id.tx_digest)
    (h6 : ev ∈ evs) (h7 : ev.timestamp_ms = none) :
    (s.next remote).1 = .panicked "Timestamp not available" := by
  have h8 : evs.isEmpty = false := by
    cases evs with
    | nil => cases h4
    | cons a rest => rfl
  unfold SuiEventSource.next
  rw [h2]
  simp only [h1, Option.isNone_some, Bool.not_true, Bool.false_or]
  rw [h3]
  simp only [h8, Bool.false_eq_true, if_false, h4, h5,
    mapChainEvents_missing evs ev h6 h7, if_neg h5]

/-- C5, witness: the amended theorem applied to a concrete batch holding a
timestampless event. -/
theorem c5_witness :
    ((evFix.next (fun _ => .ok [rawEvA, rawEvNoTs])).1
      = .panicked "Timestamp not available") := by
  refine c5_missing_timestamp_panics evFix _ [rawEvA, rawEvNoTs] rawEvNoTs rawEvNoTs ⟨"u"⟩
    (by decide) (by decide) rfl (by decide) (by decide) (by decide) (by decide)

/-- C6, confirmed: the object connector's batch loop implements exactly the
claimed per-element rule — on batches whose elements all carry data it
equals `specVersionFilter` (the rule as the claim words it: stored version
`>=` element version drops the element, otherwise the map is updated and the
element kept); keys not named by any batch element are untouched; a
non-empty raw batch whose filtered batch is empty yields "no data"; and the
`o1` scenario delivers version 1, drops the repeated version 1, and delivers
version 2. -/
theorem c6_version_map_semantics :
    (∀ (owner : String) (objs : List SuiObjectResponse) (m : List (String × Nat)),
        (∀ o ∈ objs, o.data.isSome = true) →
        processObjects owner objs m =
          ((specVersionFilter (objs.filterMap SuiObjectResponse.data) m).1.map
              (chainObjectOfData owner),
           (specVersionFilter (objs.filterMap SuiObjectResponse.data) m).2, none)) ∧
    (∀ (owner : String) (objs : List SuiObjectResponse) (m : List (String × Nat))
        (k : String),
        (∀ o ∈ objs, ∀ od, o.data = some od → od.object_id ≠ k) →
        vmGet (processObjects owner objs m).2.1 k = vmGet m k) ∧
    (∀ (s : SuiObjectSource) (pa : String → Except String String)
        (remote : ObjectQueryArgs → Except String (List SuiObjectResponse))
        (addr : String) (objs : List SuiObjectResponse) (c : SuiClient),
        s.initialized = true → s.client = some c →
        pa s.target_address = .ok addr →
        remote { address := addr, query := s.query, cursor := s.cursor,
                 limit := some s.max_objects } = .ok objs →
        objs ≠ [] →
        (processObjects s.target_address objs s.last_processed_versions).2.2 = none →
        (processObjects s.target_address objs s.last_processed_versions).1 = [] →
        (s.next pa remote).1 = .ok none) ∧
    ((obFix.next paOk obR1).1 = .ok (some [chainObjectOfData "addr" od1]) ∧
     (obFix2.next paOk obR1).1 = .ok none ∧
     (obFix3.next paOk obR2).1 = .ok (some [chainObjectOfData "addr" od1v2])) := by
  refine ⟨processObjects_eq_spec, processObjects_vm_untouched, ?_, by decide, by decide, by decide⟩
  intro s pa remote addr objs c h1 h2 h3 h4 h5 h6 h7
  have h8 : objs.isEmpty = false := by
    cases objs with
    | nil => exact absurd rfl h5
    | cons a rest => rfl
  unfold SuiObjectSource.next
  rw [h2]
  simp only [h1, Option.isNone_some, Bool.not_true, Bool.false_or, Bool.false_eq_true, if_false]
  rw [h3]
  dsimp only
  rw [h4]
  dsimp only
  simp only [h8, Bool.false_eq_true, if_false, h6, h7, List.isEmpty_nil, if_true]

/-- C6, witness: the hypothesis-bearing conjuncts applied at concrete
inputs — an all-data batch, a key absent from the batch, and a poll whose
whole batch is filtered out. -/
theorem c6_witness :
    (processObjects "addr" [⟨some od1⟩, ⟨some od1v2⟩] [] =
      ((specVersionFilter ([⟨some od1⟩, ⟨some od1v2⟩].filterMap SuiObjectResponse.data)
          []).1.map (chainObjectOfData "addr"),
       (specVersionFilter ([⟨some od1⟩, ⟨some od1v2⟩].filterMap SuiObjectResponse.data)
          []).2, none)) ∧
    (vmGet (processObjects "addr" [⟨some od1⟩] [("zzz", 4)]).2.1 "zzz"
      = vmGet [("zzz", 4)] "zzz") ∧
    ((obFix2.next paOk obR1).1 = .ok none) := by
  refine ⟨c6_version_map_semantics.1 "addr" [⟨some od1⟩, ⟨some od1v2⟩] [] (by decide),
          c6_version_map_semantics.2.1 "addr" [⟨some od1⟩] [("zzz", 4)] "zzz" ?_,
          c6_version_map_semantics.2.2.1 obFix2 paOk obR1 "addr" [⟨some od1⟩] ⟨"u"⟩
            (by decide) (by decide) rfl rfl (by decide) (by decide) (by decide)⟩
  intro o ho od hod
  have : o = ⟨some od1⟩ := by
    rcases List.mem_singleton.mp ho with h
    exact h
  subst this
  cases hod
  decide

/-- C7, confirmed: for each Sui connector, `init()` with a failing client
build returns the connection error and leaves the state exactly as it was
(still uninitialized, no client stored), so a later `init()` whose build
succeeds still transitions to the initialized state with the client stored;
`init()` on an already-initialized source returns success and changes
nothing (and the demo source's `init()` is likewise a no-op when already
initialized). The code reports the connection failure as
`StreamError::Runtime("Failed to initialize Sui client: …")`, the spec's
`ConnectionError`. -/
theorem c7_init_behavior :
    (∀ (s : SuiEventSource) (build : String → Except String SuiClient) (e : String),
        s.initialized = false → build s.rpc_url = .error e →
        s.init build = (.error (.runtime ("Failed to initialize Sui client: " ++ e)), s)) ∧
    (∀ (s : SuiEventSource) (build : String → Except String SuiClient) (c : SuiClient),
        s.initialized = false → build s.rpc_url = .ok c →
        s.init build = (.ok (), { s with client := some c, initialized := true })) ∧
    (∀ (s : SuiEventSource) (build : String → Except String SuiClient),
        s.initialized = true → s.init build = (.ok (), s)) ∧
    (∀ (s : SuiObjectSource) (build : String → Except String SuiClient) (e : String),
        s.initialized = false → build s.rpc_url = .error e →
        s.init build = (.error (.runtime ("Failed to initialize Sui client: " ++ e)), s)) ∧
    (∀ (s : SuiObjectSource) (build : String → Except String SuiClient) (c : SuiClient),
        s.initialized = false → build s.rpc_url = .ok c →
        s.init build = (.ok (), { s with client := some c, initialized := true })) ∧
    (∀ (s : SuiObjectSource) (build : String → Except String SuiClient),
        s.initialized = true → s.init build = (.ok (), s)) ∧
    (∀ (s : SuiTransactionSource) (build : String → Except String SuiClient) (e : String),
        s.initialized = false → build s.rpc_url = .error e →
        s.init build = (.error (.runtime ("Failed to initialize Sui client: " ++ e)), s)) ∧
    (∀ (s : SuiTransactionSource) (build : String → Except String SuiClient) (c : SuiClient),
        s.initialized = false → build s.rpc_url = .ok c →
        s.init build = (.ok (), { s with client := some c, initialized := true })) ∧
    (∀ (s : SuiTransactionSource) (build : String → Except String SuiClient),
        s.initialized = true → s.init build = (.ok (), s)) ∧
    (∀ (d : DemoSource), d.initialized = true → d.init = (.ok (), d)) := by
  refine ⟨?_, ?_, ?_, ?_, ?_, ?_, ?_, ?_, ?_, ?_⟩
  · intro s build e h1 h2
    unfold SuiEventSource.init
    simp [h1, h2]
  · intro s build c h1 h2
    unfold SuiEventSource.init
    simp [h1, h2]
  · intro s build h1
    unfold SuiEventSource.init
    simp [h1]
  · intro s build e h1 h2
    unfold SuiObjectSource.init
    simp [h1, h2]
  · intro s build c h1 h2
    unfold SuiObjectSource.init
    simp [h1, h2]
  · intro s build h1
    unfold SuiObjectSource.init
    simp [h1]
  · intro s build e h1 h2
    unfold SuiTransactionSource.init
    simp [h1, h2]
  · intro s build c h1 h2
    unfold SuiTransactionSource.init
    simp [h1, h2]
  · intro s build h1
    unfold SuiTransactionSource.init
    simp [h1]
  · intro d h1
    unfold DemoSource.init
    simp [h1]

/-- C7, witness: a failed `init` against a rejecting endpoint followed by a
successful retry of the same (unchanged) source, and a no-op `init` on an
already-initialized source, at concrete inputs for each connector. -/
theorem c7_witness :
    ((SuiEventSource.new "bad" 1 2).init (fun _ => .error "refused")
      = (.error (.runtime "Failed to initialize Sui client: refused"),
         SuiEventSource.new "bad" 1 2) ∧
     (SuiEventSource.new "bad" 1 2).init (fun u => .ok ⟨u⟩)
      = (.ok (), { SuiEventSource.new "bad" 1 2 with
                   client := some ⟨"bad"⟩, initialized := true }) ∧
     evFix.init (fun _ => .error "refused") = (.ok (), evFix)) ∧
    ((SuiObjectSource.new "bad" 1 "addr" 2).init (fun _ => .error "refused")
      = (.error (.runtime "Failed to initialize Sui client: refused"),
         SuiObjectSource.new "bad" 1 "addr" 2) ∧
     (SuiObjectSource.new "bad" 1 "addr" 2).init (fun u => .ok ⟨u⟩)
      = (.ok (), { SuiObjectSource.new "bad" 1 "addr" 2 with
                   client := some ⟨"bad"⟩, initialized := true }) ∧
     obFix.init (fun _ => .error "refused") = (.ok (), obFix)) ∧
    ((SuiTransactionSource.new "bad" 1 2).init (fun _ => .error "refused")
      = (.error (.runtime "Failed to initialize Sui client: refused"),
         SuiTransactionSource.new "bad" 1 2) ∧
     (SuiTransactionSource.new "bad" 1 2).init (fun u => .ok ⟨u⟩)
      = (.ok (), { SuiTransactionSource.new "bad" 1 2 with
                   client := some ⟨"bad"⟩, initialized := true }) ∧
     txFix.init (fun _ => .error "refused") = (.ok (), txFix)) ∧
    ((DemoSource.new 5).init).2.init = (.ok (), ((DemoSource.new 5).init).2) := by
  refine ⟨⟨c7_init_behavior.1 _ _ "refused" (by decide) rfl,
           c7_init_behavior.2.1 _ _ ⟨"bad"⟩ (by decide) rfl,
           c7_init_behavior.2.2.1 _ _ (by decide)⟩,
          ⟨c7_init_behavior.2.2.2.1 _ _ "refused" (by decide) rfl,
           c7_init_behavior.2.2.2.2.1 _ _ ⟨"bad"⟩ (by decide) rfl,
           c7_init_behavior.2.2.2.2.2.1 _ _ (by decide)⟩,
          ⟨c7_init_behavior.2.2.2.2.2.2.1 _ _ "refused" (by decide) rfl,
           c7_init_behavior.2.2.2.2.2.2.2.1 _ _ ⟨"bad"⟩ (by decide) rfl,
           c7_init_behavior.2.2.2.2.2.2.2.2.1 _ _ (by decide)⟩,
          c7_init_behavior.2.2.2.2.2.2.2.2.2 _ (by decide)⟩

/-- C8, counterexample: with the event source's declared order descending,
the claim's "declared-latest" element of batch `[a, b]` is its first
element, digest `"a"`, which equals the stored watermark — yet `next()`
delivers the batch and moves the watermark to `"b"`, because the code
compares the *last* element's digest, not the first. -/
theorem c8_counterexample :
    evFixWmA.descending_order = true ∧
    [rawEvA, rawEvB].head? = some rawEvA ∧
    rawEvA.id.tx_digest = "a" ∧
    evFixWmA.last_processed_event_id = some "a" ∧
    (evFixWmA.next (fun _ => .ok [rawEvA, rawEvB])).1
      = .ok (some [chainEventOfRaw rawEvA 1, chainEventOfRaw rawEvB 2]) ∧
    (evFixWmA.next (fun _ => .ok [rawEvA, rawEvB])).2.1.last_processed_event_id
      = some "b" := by
  decide

/-- C8, amended: with "designated latest" read as the element the code
designates — the batch's last element for the event source and its first
element for the transaction source — a poll whose non-empty batch has a
designated-latest identifier equal to the stored watermark returns "no
data" (not an error) and leaves the source, watermark included, exactly
unchanged; the event-connector scenario with latest IDs `e1, e2, e2, e3`
delivers on polls 1, 2 and 4 and yields "no data" on poll 3. -/
theorem c8_duplicate_poll_idempotent :
    (∀ (s : SuiEventSource) (remote : EventQueryArgs → Except String (List SuiRawEvent))
        (evs : List SuiRawEvent) (latest : SuiRawEvent) (c : SuiClient),
        s.initialized = true → s.client = some c →
        remote { query := s.query, cursor := s.cursor, limit := some s.max_events,
                 descending := s.descending_order } = .ok evs →
        evs.getLast? = some latest →
        s.last_processed_event_id = some latest.id.tx_digest →
        s.next remote =
          (.ok none, s,
           [{ query := s.query, cursor := s.cursor, limit := some s.max_events,
              descending := s.descending_order }])) ∧
    (∀ (s : SuiTransactionSource)
        (remote : TxQueryArgs → Except String (List SuiTransactionBlockResponse))
        (txs : List SuiTransactionBlockResponse) (latest : SuiTransactionBlockResponse)
        (c : SuiClient),
        s.initialized = true → s.client = some c →
        remote { query := s.query, cursor := s.cursor, limit := some s.max_transactions,
                 descending := s.descending_order } = .ok txs →
        txs.head? = some latest →
        s.last_processed_digest = some latest.digest →
        s.next remote =
          (.ok none, s,
           [{ query := s.query, cursor := s.cursor, limit := some s.max_transactions,
              descending := s.descending_order }])) ∧
    ((evFix.next evRemA).1 = .ok (some [chainEventOfRaw rawEvA 1]) ∧
     (evFixA.next evRemB).1 = .ok (some [chainEventOfRaw rawEvB 2]) ∧
     (evFix8b.next evRemB).1 = .ok none ∧
     (evFix8b.next evRemB).2.1 = evFix8b ∧
     (evFix8c.next evRemC).1 = .ok (some [chainEventOfRaw rawEvC 3])) := by
  refine ⟨?_, ?_, by decide, by decide, by decide, by decide, by decide⟩
  · intro s remote evs latest c h1 h2 h3 h4 h5
    exact eventNext_dup s remote evs latest h1 c h2 h3 h4 h5
  · intro s remote txs latest c h1 h2 h3 h4 h5
    exact txNext_dup s remote txs latest h1 c h2 h3 h4 h5

/-- C8, witness: the amended theorem applied at concrete duplicate polls of
the event and transaction connectors. -/
theorem c8_witness :
    (evFixA.next evRemA
      = (.ok none, evFixA,
         [{ query := evFixA.query, cursor := evFixA.cursor,
            limit := some evFixA.max_events,
            descending := evFixA.descending_order }])) ∧
    (txFixD.next txRem1
      = (.ok none, txFixD,
         [{ query := txFixD.query, cursor := txFixD.cursor,
            limit := some txFixD.max_transactions,
            descending := txFixD.descending_order }])) := by
  refine ⟨c8_duplicate_poll_idempotent.1 evFixA evRemA [rawEvA] rawEvA ⟨"u"⟩
            (by decide) (by decide) rfl (by decide) (by decide),
          c8_duplicate_poll_idempotent.2.1 txFixD txRem1 [txResp "t1" (some 5)]
            (txResp "t1" (some 5)) ⟨"u"⟩
            (by decide) (by decide) rfl (by decide) (by decide)⟩

/-- C9, confirmed against the spec-modelled checkpoint source: starting
from a freshly initialized state (cursor 0) over a queue of N records, the
i-th `next` call (i < N) delivers exactly the i-th record in
checkpoint-internal order and performs no remote call; the (N+1)-th call
returns "no data", changes nothing and performs no remote call; and no
number of `next` calls ever changes the consumed-checkpoint number or the
queue (no auto-advance to a later checkpoint). -/
theorem c9_checkpoint_replay :
    (∀ (s : CkEventSource) (i : Nat), s.initialized = true → s.cursor = 0 →
        ∀ (h : i < s.queue.length),
        ((ckIter s i).next).1 = .ok (some (s.queue.get ⟨i, h⟩)) ∧
        ((ckIter s i).next).2.2 = []) ∧
    (∀ (s : CkEventSource), s.initialized = true → s.cursor = 0 →
        (ckIter s s.queue.length).next
          = (.ok none, ckIter s s.queue.length, [])) ∧
    (∀ (s : CkEventSource) (n : Nat), s.initialized = true →
        (ckIter s n).last_checkpoint = s.last_checkpoint ∧
        (ckIter s n).queue = s.queue) := by
  refine ⟨?_, ?_, ?_⟩
  · intro s i h1 h2 h
    have hmin : min (s.cursor + i) (max s.cursor s.queue.length) = i := by omega
    have hst : ckIter s i = { s with cursor := i } := by
      rw [ckIter_state i s h1, hmin]
    rw [hst, ckNext_deliver { s with cursor := i } h1 h]
    exact ⟨rfl, rfl⟩
  · intro s h1 h2
    have hmin : min (s.cursor + s.queue.length) (max s.cursor s.queue.length)
        = s.queue.length := by omega
    have hst : ckIter s s.queue.length = { s with cursor := s.queue.length } := by
      rw [ckIter_state s.queue.length s h1, hmin]
    rw [hst, ckNext_exhausted { s with cursor := s.queue.length } h1 (le_refl _)]
  · intro s n h1
    rw [ckIter_state n s h1]
    exact ⟨rfl, rfl⟩

/-- C9, witness: the theorem applied to a two-record checkpoint queue —
records delivered once each in order, then "no data" with no remote call
and an unchanged consumed-checkpoint number. -/
theorem c9_witness :
    (((ckIter ckFix 0).next).1 = .ok (some "r1") ∧ ((ckIter ckFix 0).next).2.2 = []) ∧
    (((ckIter ckFix 1).next).1 = .ok (some "r2") ∧ ((ckIter ckFix 1).next).2.2 = []) ∧
    ((ckIter ckFix 2).next = (.ok none, ckIter ckFix 2, [])) ∧
    ((ckIter ckFix 2).last_checkpoint = ckFix.last_checkpoint) := by
  refine ⟨?_, ?_,
          c9_checkpoint_replay.2.1 ckFix (by decide) (by decide),
          (c9_checkpoint_replay.2.2 ckFix 2 (by decide)).1⟩
  · exact c9_checkpoint_replay.1 ckFix 0 (by decide) (by decide) (by decide)
  · exact c9_checkpoint_replay.1 ckFix 1 (by decide) (by decide) (by decide)

/-- C10, confirmed: `next()` never modifies the configured query
parameters — for each Sui source, the endpoint, interval, lifecycle flags,
client handle, query/filter, pagination cursor, descending-order flag,
per-poll limit and (for the object source) target address all keep their
values across any `next()` call, whatever the remote returns; only the
watermark fields can change. -/
theorem c10_next_frame :
    (∀ (s : SuiEventSource) (remote : EventQueryArgs → Except String (List SuiRawEvent)),
        (s.next remote).2.1.rpc_url = s.rpc_url ∧
        (s.next remote).2.1.interval = s.interval ∧
        (s.next remote).2.1.initialized = s.initialized ∧
        (s.next remote).2.1.client = s.client ∧
        (s.next remote).2.1.query = s.query ∧
        (s.next remote).2.1.cursor = s.cursor ∧
        (s.next remote).2.1.descending_order = s.descending_order ∧
        (s.next remote).2.1.max_events = s.max_events) ∧
    (∀ (s : SuiObjectSource) (pa : String → Except String String)
        (remote : ObjectQueryArgs → Except String (List SuiObjectResponse)),
        (s.next pa remote).2.1.rpc_url = s.rpc_url ∧
        (s.next pa remote).2.1.interval = s.interval ∧
        (s.next pa remote).2.1.initialized = s.initialized ∧
        (s.next pa remote).2.1.client = s.client ∧
        (s.next pa remote).2.1.target_address = s.target_address ∧
        (s.next pa remote).2.1.query = s.query ∧
        (s.next pa remote).2.1.cursor = s.cursor ∧
        (s.next pa remote).2.1.max_objects = s.max_objects) ∧
    (∀ (s : SuiTransactionSource)
        (remote : TxQueryArgs → Except String (List SuiTransactionBlockResponse)),
        (s.next remote).2.1.rpc_url = s.rpc_url ∧
        (s.next remote).2.1.interval = s.interval ∧
        (s.next remote).2.1.initialized = s.initialized ∧
        (s.next remote).2.1.client = s.client ∧
        (s.next remote).2.1.query = s.query ∧
        (s.next remote).2.1.cursor = s.cursor ∧
        (s.next remote).2.1.descending_order = s.descending_order ∧
        (s.next remote).2.1.max_transactions = s.max_transactions) := by
  refine ⟨?_, ?_, ?_⟩
  · intro s remote
    rcases eventNext_cases s remote with hc | ⟨d, hs, _⟩
    · rw [hc]
      exact ⟨rfl, rfl, rfl, rfl, rfl, rfl, rfl, rfl⟩
    · rw [hs]
      exact ⟨rfl, rfl, rfl, rfl, rfl, rfl, rfl, rfl⟩
  · intro s pa remote
    rcases objNext_cases s pa remote with ⟨hc, _⟩ | ⟨objs, hs, _⟩
    · rw [hc]
      exact ⟨rfl, rfl, rfl, rfl, rfl, rfl, rfl, rfl⟩
    · rw [hs]
      exact ⟨rfl, rfl, rfl, rfl, rfl, rfl, rfl, rfl⟩
  · intro s remote
    rcases txNext_cases s remote with hc | ⟨d, ck, hs, _⟩
    · rw [hc]
      exact ⟨rfl, rfl, rfl, rfl, rfl, rfl, rfl, rfl⟩
    · rw [hs]
      exact ⟨rfl, rfl, rfl, rfl, rfl, rfl, rfl, rfl⟩
